import Mathlib

/-!
Verification of the Space_OR earth-observation scheduler
(src/Space_OR/Solver/solver.py, src/Space_OR/Inputbuilder/inputbuilder.py,
src/Space_OR/main.py) against its natural-language specification.

The solver builds a mixed-integer model over catalogued visibility, downlink
and recharge windows.  We embed the catalog record types, the slot
unification, the parameter dictionaries and the full constraint set as
executable Lean definitions, and state the specification claims as theorems
about assignments accepted by that constraint set.
-/

unseal Rat.add Rat.sub Rat.mul Rat.inv

namespace EOS

/-- Model of Python `str.strip()`: drop whitespace from both ends. -/
def pyStrip (s : String) : String :=
  String.mk (((s.toList.dropWhile Char.isWhitespace).reverse.dropWhile
    Char.isWhitespace).reverse)

/-- Accumulator loop for `pySplit`. -/
def splitCharAux (sep : Char) : List Char → List Char → List (List Char)
  | [], acc => [acc.reverse]
  | c :: cs, acc =>
      if c = sep then acc.reverse :: splitCharAux sep cs []
      else splitCharAux sep cs (c :: acc)

/-- Model of Python `str.split(sep)` with a one-character separator:
splits on every occurrence, keeping empty pieces, never returning `[]`. -/
def pySplit (sep : Char) (s : String) : List String :=
  (splitCharAux sep s.toList []).map String.mk

/-- Lexicographic code-point comparison of character lists: the order Python
uses when sorting strings. -/
def charListLt : List Char → List Char → Bool
  | [], [] => false
  | [], _ :: _ => true
  | _ :: _, [] => false
  | a :: as, b :: bs =>
      if a.toNat < b.toNat then true
      else if b.toNat < a.toNat then false
      else charListLt as bs

/-- Strict lexicographic order on strings by code points. -/
def strLt (a b : String) : Bool := charListLt a.toList b.toList

/-- Insert a string into an already sorted list (ascending, lexicographic). -/
def insertSorted (a : String) : List String → List String
  | [] => [a]
  | b :: bs => if strLt a b then a :: b :: bs else b :: insertSorted a bs

/-- Model of Python `sorted(list(set(l)))`: distinct values in ascending order. -/
def pySortedSet (l : List String) : List String :=
  l.dedup.foldr insertSorted []

/-- Entities/Statellite record, as read by `read_statellite_data`. -/
structure Statellite where
  satelliteid : String
  orbit : String
  memory_capacity : ℚ
  max_obs_per_day : ℕ
deriving DecidableEq

/-- Entities/GroundStation record, as read by `read_groundstation_data`. -/
structure GroundStation where
  stationid : String
  location : String
  max_data_rate : ℚ
deriving DecidableEq

/-- Entities/Target record, as read by `read_target_data`. -/
structure Target where
  target_id : String
  lat : ℚ
  lon : ℚ
  urgency : ℚ
  importance : ℚ
deriving DecidableEq

/-- Entities/Visual_Time_Window record, as read by `read_vtw_data`. -/
structure Visual_Time_Window where
  timeSlotStart : String
  timeSlotEnd : String
  satelliteid : String
  target_id : String
  duration : ℚ
deriving DecidableEq

/-- Entities/Downlink record, as read by `read_downlink_data`. -/
structure Downlink where
  timeSlotStart : String
  timeSlotEnd : String
  satelliteid : String
  groundstationid : String
  duration : ℚ
  max_data : ℚ
deriving DecidableEq

/-- Recharge window record: `(satelliteid, timeSlotStart)`, as consumed by
`Solver._build_recharge_parameters`. -/
structure RechargeWindow where
  satelliteid : String
  timeSlotStart : String
deriving DecidableEq

/-- The catalog handed to `Solver.__init__` (the `input_data` object).
The Python dictionaries keyed by natural identifiers are modelled as lists
of records; the identifier of each record is its key. -/
structure InputData where
  downlink : List Downlink
  groudstation : List GroundStation
  statellite : List Statellite
  target : List Target
  vtw : List Visual_Time_Window
  rechargewindow : List RechargeWindow

/-- Constant `self.data_per_obs = 5` (GB of observation data). -/
def data_per_obs : ℚ := 5

/-- Constant `self.data_down = 10` (GB max transferable in one go). -/
def data_down : ℚ := 10

/-- Constant `self.max_per_day_obs = 5` (global per-day observation cap). -/
def max_per_day_obs : ℕ := 5

/-- Constant `self.power_capacity = 100` (Wh). -/
def power_capacity : ℚ := 100

/-- Constant `self.power_per_obs = 10` (Wh consumed per observation). -/
def power_per_obs : ℚ := 10

/-- Constant `self.power_per_downlink = 5` (Wh consumed per GB downlinked). -/
def power_per_downlink : ℚ := 5

/-- Constant `self.charge_rate_per_slot = 15` (Wh recharged per sunlit slot). -/
def charge_rate_per_slot : ℚ := 15

/-- Keys of the `self.statellite` dictionary. -/
def satIds (c : InputData) : List String := c.statellite.map (·.satelliteid)

/-- Keys of the `self.groudstation` dictionary. -/
def gsIds (c : InputData) : List String := c.groudstation.map (·.stationid)

/-- Keys of the `self.target` dictionary. -/
def tgtIds (c : InputData) : List String := c.target.map (·.target_id)

/-- Observation slots: `sorted(set(vtw.timeSlotStart.strip() for vtw in vtws))`
from `Inputbuilder._create_time_slot_mapping`. -/
def time_slots (c : InputData) : List String :=
  pySortedSet (c.vtw.map (fun w => pyStrip w.timeSlotStart))

/-- Downlink slots: `sorted(set(dl.timeSlotStart.strip() for dl in downlinks))`
from `Inputbuilder._create_time_slot_mapping`. -/
def dl_time_slots (c : InputData) : List String :=
  pySortedSet (c.downlink.map (fun d => pyStrip d.timeSlotStart))

/-- Combined slots: `sorted(set(self.time_slots + self.dl_time_slots))`. -/
def combined_slots (c : InputData) : List String :=
  pySortedSet (time_slots c ++ dl_time_slots c)

/-- The key set of the observation-variable dictionary `self.x`: the loops in
`create_decision_variables` range over every satellite, every target and every
observation slot. -/
def obsVarKeys (c : InputData) : List (String × String × String) :=
  (satIds c).flatMap (fun s => (tgtIds c).flatMap (fun t =>
    (time_slots c).map (fun k => (s, t, k))))

/-- The key set of the downlink dictionaries `self.y` and `self.d`: the loops
range over every satellite, every ground station and every downlink slot. -/
def dlVarKeys (c : InputData) : List (String × String × String) :=
  (satIds c).flatMap (fun s => (gsIds c).flatMap (fun g =>
    (dl_time_slots c).map (fun k => (s, g, k))))

/-- Parameter `self.vt_window[s, t, k]` built by `_build_vtw_parameters`: 1 exactly when
some VTW record has these (trimmed) coordinates and passes the membership
filter, else 0. -/
def vt_window (c : InputData) (s t k : String) : ℕ :=
  if ∃ w ∈ c.vtw, w.satelliteid = s ∧ w.target_id = t ∧
      pyStrip w.timeSlotStart = k ∧ w.satelliteid ∈ satIds c ∧
      w.target_id ∈ tgtIds c ∧ pyStrip w.timeSlotStart ∈ time_slots c
  then 1 else 0

/-- Parameter `self.downlink_window[s, g, k]` built by `_build_downlink_parameters`. -/
def downlink_window (c : InputData) (s g k : String) : ℕ :=
  if ∃ w ∈ c.downlink, w.satelliteid = s ∧ w.groundstationid = g ∧
      pyStrip w.timeSlotStart = k ∧ w.satelliteid ∈ satIds c ∧
      w.groundstationid ∈ gsIds c ∧ pyStrip w.timeSlotStart ∈ dl_time_slots c
  then 1 else 0

/-- Parameter `self.recharge_window.get((s, k), 0)` built by `_build_recharge_parameters`. -/
def recharge_window (c : InputData) (s k : String) : ℚ :=
  if ∃ r ∈ c.rechargewindow, r.satelliteid = s ∧ pyStrip r.timeSlotStart = k ∧
      r.satelliteid ∈ satIds c ∧ pyStrip r.timeSlotStart ∈ combined_slots c
  then 1 else 0

/-- A candidate solution: one value per decision variable of the model.
Binary variables are booleans, continuous variables are rationals.  The
functions are total over strings; the model only constrains them at the
materialized keys. -/
structure Assignment where
  x : String → String → String → Bool
  y : String → String → String → Bool
  d : String → String → String → ℚ
  m : String → String → ℚ
  p : String → String → ℚ

/-- Observation inflow at slot `k`:
`quicksum(data_per_obs * x[s,t,k] for t in target if (s,t,k) in x)` from the
memory-balance block of `create_constraints`. -/
def obs_in (c : InputData) (a : Assignment) (s k : String) : ℚ :=
  ((tgtIds c).map (fun t =>
    if (s, t, k) ∈ obsVarKeys c ∧ a.x s t k = true then data_per_obs else 0)).sum

/-- Downlink outflow at slot `k`:
`quicksum(d[s,g,k] for g in groundstation if (s,g,k) in d)`. -/
def dl_out (c : InputData) (a : Assignment) (s k : String) : ℚ :=
  ((gsIds c).map (fun g =>
    if (s, g, k) ∈ dlVarKeys c then a.d s g k else 0)).sum

/-- Sum `quicksum(power_per_obs * x[s,t,k] for t in target if (s,t,k) in x)`. -/
def power_consumed_obs (c : InputData) (a : Assignment) (s k : String) : ℚ :=
  ((tgtIds c).map (fun t =>
    if (s, t, k) ∈ obsVarKeys c ∧ a.x s t k = true then power_per_obs else 0)).sum

/-- Sum `quicksum(power_per_downlink * d[s,g,k] for g in groundstation if (s,g,k) in d)`. -/
def power_consumed_dl (c : InputData) (a : Assignment) (s k : String) : ℚ :=
  ((gsIds c).map (fun g =>
    if (s, g, k) ∈ dlVarKeys c then power_per_downlink * a.d s g k else 0)).sum

/-- Number of active observation indicators of satellite `s`:
`quicksum(x[s,t,k] for t in target for k in time_slots if (s,t,k) in x)`
(constraint 2 of `create_constraints`). -/
def obsCount (c : InputData) (a : Assignment) (s : String) : ℕ :=
  ((tgtIds c).flatMap (fun t => (time_slots c).map (fun k => (t, k)))).countP
    (fun q => decide ((s, q.1, q.2) ∈ obsVarKeys c) && a.x s q.1 q.2)

/-- Number of active observation indicators on target `t`:
`quicksum(x[s,t,k] for s in statellite for k in time_slots if (s,t,k) in x)`
(constraint 3 of `create_constraints`). -/
def targetObsCount (c : InputData) (a : Assignment) (t : String) : ℕ :=
  ((satIds c).flatMap (fun s => (time_slots c).map (fun k => (s, k)))).countP
    (fun q => decide ((q.1, t, q.2) ∈ obsVarKeys c) && a.x q.1 t q.2)

/-- Variable bounds declared in `create_decision_variables`: `d` has
`lb=0, ub=data_down`; `m` has `lb=0`; `p` has `lb=0, ub=power_capacity`. -/
@[reducible] def varBounds (c : InputData) (a : Assignment) : Prop :=
  (∀ s ∈ satIds c, ∀ g ∈ gsIds c, ∀ k ∈ dl_time_slots c,
    0 ≤ a.d s g k ∧ a.d s g k ≤ data_down) ∧
  (∀ s ∈ satIds c, ∀ k ∈ combined_slots c, 0 ≤ a.m s k) ∧
  (∀ s ∈ satIds c, ∀ k ∈ combined_slots c,
    0 ≤ a.p s k ∧ a.p s k ≤ power_capacity)

/-- Constraint 1 of `create_constraints`: `x[s,t,k] <= vt_window[s,t,k]`.
For a binary variable this says the indicator can be active only where the
window parameter is 1. -/
@[reducible] def vtwConstraint (c : InputData) (a : Assignment) : Prop :=
  ∀ s ∈ satIds c, ∀ t ∈ tgtIds c, ∀ k ∈ time_slots c,
    a.x s t k = true → vt_window c s t k = 1

/-- Constraint 2: observation limit per day, `obsCount <= max_per_day_obs`. -/
@[reducible] def obsLimit (c : InputData) (a : Assignment) : Prop :=
  ∀ s ∈ satIds c, obsCount c a s ≤ max_per_day_obs

/-- Constraint 3: single observation per target, `targetObsCount <= 1`. -/
@[reducible] def singleObsPerTarget (c : InputData) (a : Assignment) : Prop :=
  ∀ t ∈ tgtIds c, targetObsCount c a t ≤ 1

/-- Constraint 4, walking an explicit slot sequence: for the first slot
`m = obs_in - dl_out`; for every later slot `m[k] = m[prev_k] + obs_in - dl_out`. -/
@[reducible] def memoryBalanceOn (c : InputData) (a : Assignment)
    (cs : List String) : Prop :=
  ∀ s ∈ satIds c, ∀ i, ∀ h : i < cs.length,
    a.m s (cs.get ⟨i, h⟩) =
      (if i = 0 then 0 else
        a.m s (cs.get ⟨i - 1, Nat.lt_of_le_of_lt (Nat.sub_le i 1) h⟩))
      + obs_in c a s (cs.get ⟨i, h⟩)
      - dl_out c a s (cs.get ⟨i, h⟩)

/-- Constraint 4: memory balance over the combined slot sequence. -/
@[reducible] def memoryBalance (c : InputData) (a : Assignment) : Prop :=
  memoryBalanceOn c a (combined_slots c)

/-- Constraint 5: `m[s,k] <= statellite[s].memory_capacity`. -/
@[reducible] def memoryCapacity (c : InputData) (a : Assignment) : Prop :=
  ∀ sat ∈ c.statellite, ∀ k ∈ combined_slots c,
    a.m sat.satelliteid k ≤ sat.memory_capacity

/-- Constraint 6, walking an explicit slot sequence: for the first slot
`p = power_capacity - consumed_obs - consumed_dl + recharge`; for every later
slot `p[k] = p[prev_k] - consumed_obs - consumed_dl + recharge`. -/
@[reducible] def powerBalanceOn (c : InputData) (a : Assignment)
    (cs : List String) : Prop :=
  ∀ s ∈ satIds c, ∀ i, ∀ h : i < cs.length,
    a.p s (cs.get ⟨i, h⟩) =
      (if i = 0 then power_capacity else
        a.p s (cs.get ⟨i - 1, Nat.lt_of_le_of_lt (Nat.sub_le i 1) h⟩))
      - power_consumed_obs c a s (cs.get ⟨i, h⟩)
      - power_consumed_dl c a s (cs.get ⟨i, h⟩)
      + charge_rate_per_slot * recharge_window c s (cs.get ⟨i, h⟩)

/-- Constraint 6: power balance over the combined slot sequence. -/
@[reducible] def powerBalance (c : InputData) (a : Assignment) : Prop :=
  powerBalanceOn c a (combined_slots c)

/-- Constraint 7: `0 <= p[s,k] <= power_capacity` at every combined slot. -/
@[reducible] def powerCapacity (c : InputData) (a : Assignment) : Prop :=
  ∀ s ∈ satIds c, ∀ k ∈ combined_slots c,
    a.p s k ≤ power_capacity ∧ 0 ≤ a.p s k

/-- Constraint 8: `y[s,g,k] <= downlink_window[s,g,k]`. -/
@[reducible] def dlWindowConstraint (c : InputData) (a : Assignment) : Prop :=
  ∀ s ∈ satIds c, ∀ g ∈ gsIds c, ∀ k ∈ dl_time_slots c,
    a.y s g k = true → downlink_window c s g k = 1

/-- Constraint 9: `d[s,g,k] <= data_down * y[s,g,k]`. -/
@[reducible] def dlLink (c : InputData) (a : Assignment) : Prop :=
  ∀ s ∈ satIds c, ∀ g ∈ gsIds c, ∀ k ∈ dl_time_slots c,
    a.d s g k ≤ data_down * (if a.y s g k = true then 1 else 0)

/-- Constraint 10: ground station conflict,
`quicksum(y[s,g,k] for s in statellite if (s,g,k) in y) <= 1`. -/
@[reducible] def gsConflict (c : InputData) (a : Assignment) : Prop :=
  ∀ g ∈ gsIds c, ∀ k ∈ dl_time_slots c,
    ((satIds c).countP
      (fun s => decide ((s, g, k) ∈ dlVarKeys c) && a.y s g k)) ≤ 1

/-- Constraint 11: satellite downlink exclusivity,
`quicksum(y[s,g,k] for g in groundstation if (s,g,k) in y) <= 1`. -/
@[reducible] def satDlExclusivity (c : InputData) (a : Assignment) : Prop :=
  ∀ s ∈ satIds c, ∀ k ∈ dl_time_slots c,
    ((gsIds c).countP
      (fun g => decide ((s, g, k) ∈ dlVarKeys c) && a.y s g k)) ≤ 1

/-- An accepted solution: an assignment satisfying every variable bound of
`create_decision_variables` and every constraint of `create_constraints`. -/
@[reducible] def feasible (c : InputData) (a : Assignment) : Prop :=
  varBounds c a ∧ vtwConstraint c a ∧ obsLimit c a ∧ singleObsPerTarget c a ∧
  memoryBalance c a ∧ memoryCapacity c a ∧ powerBalance c a ∧
  powerCapacity c a ∧ dlWindowConstraint c a ∧ dlLink c a ∧ gsConflict c a ∧
  satDlExclusivity c a

/-- Total downlinked volume, `quicksum(d[s,g,k] ...)` of `create_objective`. -/
def dl_total (c : InputData) (a : Assignment) : ℚ :=
  ((satIds c).map (fun s => ((gsIds c).map (fun g =>
    ((dl_time_slots c).map (fun k =>
      if (s, g, k) ∈ dlVarKeys c then a.d s g k else 0)).sum)).sum)).sum

/-- Observation value of `create_objective`:
`quicksum(target[t].urgency * target[t].importance * x[s,t,k] ...)`. -/
def obs_value (c : InputData) (a : Assignment) : ℚ :=
  ((satIds c).map (fun s => ((c.target).map (fun tgt =>
    ((time_slots c).map (fun k =>
      if (s, tgt.target_id, k) ∈ obsVarKeys c ∧ a.x s tgt.target_id k = true
      then tgt.urgency * tgt.importance else 0)).sum)).sum)).sum

/-- Downlink bonus of `create_objective`: `0.1 * quicksum(d[s,g,k] ...)`. -/
def downlink_value (c : InputData) (a : Assignment) : ℚ :=
  (1 / 10) * dl_total c a

/-- The maximized objective: `obs_value + downlink_value`. -/
def objective (c : InputData) (a : Assignment) : ℚ :=
  obs_value c a + downlink_value c a

/-- The en-dash separator used by `split('–')` in `read_downlink_data` and
`read_vtw_data`. -/
def endash : Char := '–'

/-- One row of Downlink.csv as seen by `read_downlink_data`. -/
structure DownlinkRow where
  timeSlot : String
  satelliteId : String
  groundStationId : String
  duration : ℚ
  maxData : ℚ

/-- One row of VTW.csv as seen by `read_vtw_data`. -/
structure VtwRow where
  timeSlot : String
  satelliteId : String
  targetId : String
  duration : ℚ

/-- One row of GroundStation.csv. -/
structure GroundStationRow where
  stationId : String
  location : String
  maxDataRate : ℚ

/-- One row of Satellite.csv. -/
structure SatelliteRow where
  satelliteId : String
  orbit : String
  memoryCapacity : ℚ
  maxObsPerDay : ℕ

/-- One row of Target.csv. -/
structure TargetRow where
  targetId : String
  lat : ℚ
  lon : ℚ
  urgency : ℚ
  importance : ℚ

/-- The tabular input files consumed by `Inputbuilder.build`. -/
structure RawInput where
  downlinkRows : List DownlinkRow
  groundstationRows : List GroundStationRow
  satelliteRows : List SatelliteRow
  targetRows : List TargetRow
  vtwRows : List VtwRow

/-- Python list indexing `l[i]`: raises IndexError past the end. -/
def listIndex (l : List String) (i : ℕ) : Except String String :=
  match l.get? i with
  | some v => Except.ok v
  | none => Except.error "IndexError: list index out of range"

/-- One iteration of `read_downlink_data`:
`time_slot_start = row['Time Slot'].split('–')[0].strip()` and
`time_slot_end = row['Time Slot'].split('–')[1].strip()`; indexing `[1]`
raises when the separator is missing. -/
def read_downlink_row (row : DownlinkRow) : Except String Downlink :=
  match listIndex (pySplit endash row.timeSlot) 0 with
  | Except.error e => Except.error e
  | Except.ok s0 =>
    match listIndex (pySplit endash row.timeSlot) 1 with
    | Except.error e => Except.error e
    | Except.ok s1 =>
      Except.ok
        { timeSlotStart := pyStrip s0, timeSlotEnd := pyStrip s1,
          satelliteid := row.satelliteId,
          groundstationid := row.groundStationId,
          duration := row.duration, max_data := row.maxData }

/-- One iteration of `read_vtw_data`, with the same interval split. -/
def read_vtw_row (row : VtwRow) : Except String Visual_Time_Window :=
  match listIndex (pySplit endash row.timeSlot) 0 with
  | Except.error e => Except.error e
  | Except.ok s0 =>
    match listIndex (pySplit endash row.timeSlot) 1 with
    | Except.error e => Except.error e
    | Except.ok s1 =>
      Except.ok
        { timeSlotStart := pyStrip s0, timeSlotEnd := pyStrip s1,
          satelliteid := row.satelliteId, target_id := row.targetId,
          duration := row.duration }

/-- Row loop of a reader method: the first raised exception aborts the whole
read and propagates. -/
def readRows {α β : Type} (f : α → Except String β) :
    List α → Except String (List β)
  | [] => Except.ok []
  | r :: rs =>
    match f r with
    | Except.error e => Except.error e
    | Except.ok b =>
      match readRows f rs with
      | Except.error e => Except.error e
      | Except.ok bs => Except.ok (b :: bs)

/-- Model of `Inputbuilder.build`: reads Downlink.csv, GroundStation.csv,
Satellite.csv, Target.csv and VTW.csv in that order; only the two readers
that split interval labels can raise.  The source `Inputbuilder` constructs
no recharge windows, so that collection is empty here. -/
def build (raw : RawInput) : Except String InputData :=
  match readRows read_downlink_row raw.downlinkRows with
  | Except.error e => Except.error e
  | Except.ok dls =>
    match readRows read_vtw_row raw.vtwRows with
    | Except.error e => Except.error e
    | Except.ok vtws =>
      Except.ok
        { downlink := dls,
          groudstation := raw.groundstationRows.map (fun r =>
            { stationid := r.stationId, location := r.location,
              max_data_rate := r.maxDataRate }),
          statellite := raw.satelliteRows.map (fun r =>
            { satelliteid := r.satelliteId, orbit := r.orbit,
              memory_capacity := r.memoryCapacity,
              max_obs_per_day := r.maxObsPerDay }),
          target := raw.targetRows.map (fun r =>
            { target_id := r.targetId, lat := r.lat, lon := r.lon,
              urgency := r.urgency, importance := r.importance }),
          vtw := vtws,
          rechargewindow := [] }

/-- Model of `main.run`: build the catalog, then construct the model from it.  Model
construction is represented by materializing the decision-variable key sets
(`create_decision_variables`); it only happens when reading succeeded. -/
def runScheduler (raw : RawInput) :
    Except String (List (String × String × String) ×
      List (String × String × String)) :=
  match build raw with
  | Except.error e => Except.error e
  | Except.ok inp => Except.ok (obsVarKeys inp, dlVarKeys inp)

/-- The all-idle assignment: every indicator off, no volume transferred,
memory zero and power at capacity everywhere. -/
def idleAssignment : Assignment :=
  { x := fun _ _ _ => false, y := fun _ _ _ => false, d := fun _ _ _ => 0,
    m := fun _ _ => 0, p := fun _ _ => power_capacity }

/-- A small working catalog: one satellite, one target, one ground station,
one visibility window at slot T1 and one downlink window at slot T2.
Record fields follow the structure declarations above. -/
def satW : Statellite := ⟨"S1", "LEO", 100, 3⟩

def catW : InputData :=
  ⟨[⟨"T2", "T2x", "S1", "G1", 10, 10⟩],
   [⟨"G1", "loc", 5⟩],
   [satW],
   [⟨"A", 0, 0, 2, 3⟩],
   [⟨"T1", "T1x", "S1", "A", 10⟩],
   []⟩

/-- A feasible hand-built solution on `catW`: observe A at T1 (5 GB, 10 Wh),
downlink 5 GB at T2 (25 Wh). -/
def asgW : Assignment :=
  { x := fun s t k => s == "S1" && t == "A" && k == "T1",
    y := fun s g k => s == "S1" && g == "G1" && k == "T2",
    d := fun s g k => if s == "S1" && g == "G1" && k == "T2" then 5 else 0,
    m := fun _ k => if k == "T1" then 5 else 0,
    p := fun _ k => if k == "T1" then 90 else 65 }

/-- Catalog with two satellites but a visibility window only for S1: the
variable loops still materialize an observation variable for S2. -/
def cex1 : InputData :=
  ⟨[], [], [⟨"S1", "LEO", 100, 5⟩, ⟨"S2", "LEO", 100, 5⟩],
   [⟨"A", 0, 0, 1, 1⟩], [⟨"T1", "T1x", "S1", "A", 10⟩], []⟩

/-- Catalog whose only satellite has catalog `max_obs_per_day = 0`. -/
def cex3 : InputData :=
  ⟨[], [], [⟨"S1", "LEO", 100, 0⟩], [⟨"A", 0, 0, 1, 1⟩],
   [⟨"T1", "T1x", "S1", "A", 10⟩], []⟩

/-- A solution on `cex3` scheduling one observation: feasible for the model
(the solver compares against the global constant 5), yet it exceeds the
satellite's catalog limit of 0. -/
def asg3 : Assignment :=
  { x := fun s t k => s == "S1" && t == "A" && k == "T1",
    y := fun _ _ _ => false, d := fun _ _ _ => 0,
    m := fun _ _ => 5, p := fun _ _ => 90 }

/-- Catalog with a recharge window at the only combined slot T1 and no
downlink opportunity: recharging forces power above capacity. -/
def cex4 : InputData :=
  ⟨[], [], [⟨"S1", "LEO", 100, 5⟩], [⟨"A", 0, 0, 1, 1⟩],
   [⟨"T1", "T1x", "S1", "A", 10⟩], [⟨"S1", "T1"⟩]⟩

/-- The all-idle assignment on `cex4` with memory and power levels defined by
the recurrences: power at T1 is 100 - 0 - 0 + 15 = 115. -/
def idle4 : Assignment :=
  { x := fun _ _ _ => false, y := fun _ _ _ => false, d := fun _ _ _ => 0,
    m := fun _ _ => 0, p := fun _ _ => 115 }

/-- Catalog for the objective trade-off: target A is worth 4, targets B, C, D
are worth 1 each, and two downlink windows follow the observation slot. -/
def cex8 : InputData :=
  ⟨[⟨"T2", "T2x", "S1", "G1", 10, 10⟩, ⟨"T3", "T3x", "S1", "G1", 10, 10⟩],
   [⟨"G1", "loc", 5⟩],
   [⟨"S1", "LEO", 100, 5⟩],
   [⟨"A", 0, 0, 4, 1⟩, ⟨"B", 0, 0, 1, 1⟩, ⟨"C", 0, 0, 1, 1⟩, ⟨"D", 0, 0, 1, 1⟩],
   [⟨"T1", "T1x", "S1", "A", 10⟩, ⟨"T1", "T1x", "S1", "B", 10⟩,
    ⟨"T1", "T1x", "S1", "C", 10⟩, ⟨"T1", "T1x", "S1", "D", 10⟩],
   []⟩

/-- Solution A on `cex8`: observe only A (coverage 4), downlink nothing. -/
def asgA8 : Assignment :=
  { x := fun s t k => s == "S1" && t == "A" && k == "T1",
    y := fun _ _ _ => false, d := fun _ _ _ => 0,
    m := fun _ _ => 5, p := fun _ _ => 90 }

/-- Solution B on `cex8`: observe B, C, D (coverage 3), downlink 10 GB at T2
and 4 GB at T3 (14 GB total, bonus 1.4). -/
def asgB8 : Assignment :=
  { x := fun s t k => s == "S1" && (t == "B" || t == "C" || t == "D") && k == "T1",
    y := fun s g k => s == "S1" && g == "G1" && (k == "T2" || k == "T3"),
    d := fun s g k =>
      if s == "S1" && g == "G1" && k == "T2" then 10
      else if s == "S1" && g == "G1" && k == "T3" then 4 else 0,
    m := fun _ k => if k == "T1" then 15 else if k == "T2" then 5 else 1,
    p := fun _ k => if k == "T1" then 70 else if k == "T2" then 20 else 0 }

/-- Catalog whose downlink window advertises `max_data = 2` GB and whose
ground station advertises `max_data_rate = 2` GB/slot. -/
def cat10 : InputData :=
  ⟨[⟨"T2", "T2x", "S1", "G1", 10, 2⟩],
   [⟨"G1", "loc", 2⟩],
   [⟨"S1", "LEO", 100, 5⟩],
   [⟨"A", 0, 0, 1, 1⟩],
   [⟨"T1", "T1x", "S1", "A", 10⟩],
   []⟩

/-- Solution on `cat10` transferring 5 GB in one downlink: more than both
advertised 2 GB limits, yet accepted by every constraint of the model. -/
def asg10 : Assignment :=
  { x := fun s t k => s == "S1" && t == "A" && k == "T1",
    y := fun s g k => s == "S1" && g == "G1" && k == "T2",
    d := fun s g k => if s == "S1" && g == "G1" && k == "T2" then 5 else 0,
    m := fun _ k => if k == "T1" then 5 else 0,
    p := fun _ k => if k == "T1" then 90 else 65 }

/-- Raw input whose downlink row's interval field lacks the en-dash separator. -/
def rawBad : RawInput :=
  ⟨[⟨"T1 to T2", "S1", "G1", 10, 10⟩],
   [⟨"G1", "loc", 5⟩], [⟨"S1", "LEO", 100, 5⟩], [⟨"A", 0, 0, 1, 1⟩],
   [⟨"T1 – T1x", "S1", "A", 10⟩]⟩

/-- A downlink record with its max-data field erased. -/
def scrubDl (w : Downlink) : Downlink :=
  { w with max_data := 0 }

/-- A ground station record with its max-data-rate field erased. -/
def scrubGs (g : GroundStation) : GroundStation :=
  { g with max_data_rate := 0 }

/-- The same catalog with every downlink window's max-data and every ground
station's max-data-rate erased. -/
def scrubMaxData (c : InputData) : InputData :=
  { c with downlink := c.downlink.map scrubDl,
           groudstation := c.groudstation.map scrubGs }

theorem mem_obsVarKeys (c : InputData) (s t k : String) :
    (s, t, k) ∈ obsVarKeys c ↔
      s ∈ satIds c ∧ t ∈ tgtIds c ∧ k ∈ time_slots c := by
  simp only [obsVarKeys, List.mem_flatMap, List.mem_map, Prod.mk.injEq]
  constructor
  · rintro ⟨a, ha, b, hb, k2, hk2, rfl, rfl, rfl⟩
    exact ⟨ha, hb, hk2⟩
  · rintro ⟨hs, ht, hk⟩
    exact ⟨s, hs, t, ht, k, hk, rfl, rfl, rfl⟩

theorem mem_dlVarKeys (c : InputData) (s g k : String) :
    (s, g, k) ∈ dlVarKeys c ↔
      s ∈ satIds c ∧ g ∈ gsIds c ∧ k ∈ dl_time_slots c := by
  simp only [dlVarKeys, List.mem_flatMap, List.mem_map, Prod.mk.injEq]
  constructor
  · rintro ⟨a, ha, b, hb, k2, hk2, rfl, rfl, rfl⟩
    exact ⟨ha, hb, hk2⟩
  · rintro ⟨hs, hg, hk⟩
    exact ⟨s, hs, g, hg, k, hk, rfl, rfl, rfl⟩

/-- A count bounded by one forces all selected elements to agree. -/
theorem countP_le_one_unique {l : List String} {q : String → Bool}
    (h : l.countP q ≤ 1) :
    ∀ a ∈ l, ∀ b ∈ l, q a = true → q b = true → a = b := by
  intro a ha b hb hqa hqb
  by_contra hne
  have ha2 : a ∈ l.filter q := List.mem_filter.mpr ⟨ha, hqa⟩
  have hb2 : b ∈ l.filter q := List.mem_filter.mpr ⟨hb, hqb⟩
  have h2 : 1 < (l.filter q).toFinset.card :=
    Finset.one_lt_card.mpr
      ⟨a, List.mem_toFinset.mpr ha2, b, List.mem_toFinset.mpr hb2, hne⟩
  have h3 : (l.filter q).toFinset.card ≤ (l.filter q).length :=
    (l.filter q).toFinset_card_le
  rw [List.countP_eq_length_filter] at h
  omega

/-- C1 counterexample: in catalog `cex1` the observation-variable key
(S2, A, T1) is materialized by `create_decision_variables` although no
VisibilityWindow record supplies that triple, refuting the claim that a
variable exists only for VTW-supplied triples. -/
theorem C1_counterexample :
    ("S2", "A", "T1") ∈ obsVarKeys cex1 ∧
    ¬ ∃ w ∈ cex1.vtw, w.satelliteid = "S2" ∧ w.target_id = "A" ∧
        pyStrip w.timeSlotStart = "T1" := by
  decide

/-- C1 (amended): observation variables are materialized densely for every
(catalog satellite, catalog target, observation-slot) combination, and
likewise downlink indicator/volume variables over
satellites x stations x downlink slots; triples not supplied by a window
record are forced to zero by the window constraints, not absent. -/
theorem C1_dense_materialization (c : InputData) :
    (∀ s t k, (s, t, k) ∈ obsVarKeys c ↔
       s ∈ satIds c ∧ t ∈ tgtIds c ∧ k ∈ time_slots c) ∧
    (∀ s g k, (s, g, k) ∈ dlVarKeys c ↔
       s ∈ satIds c ∧ g ∈ gsIds c ∧ k ∈ dl_time_slots c) ∧
    (∀ a, feasible c a → ∀ s t k, (s, t, k) ∈ obsVarKeys c →
       vt_window c s t k = 0 → a.x s t k = false) ∧
    (∀ a, feasible c a → ∀ s g k, (s, g, k) ∈ dlVarKeys c →
       downlink_window c s g k = 0 → a.y s g k = false ∧ a.d s g k = 0) := by
  refine ⟨mem_obsVarKeys c, mem_dlVarKeys c, ?_, ?_⟩
  · intro a hf s t k hmem hvw
    obtain ⟨hs, ht, hk⟩ := (mem_obsVarKeys c s t k).mp hmem
    obtain ⟨-, hvtw, -⟩ := hf
    cases hx : a.x s t k with
    | false => rfl
    | true =>
      exfalso
      have h1 := hvtw s hs t ht k hk hx
      omega
  · intro a hf s g k hmem hdw
    obtain ⟨hs, hg, hk⟩ := (mem_dlVarKeys c s g k).mp hmem
    obtain ⟨hb, -, -, -, -, -, -, -, hdwc, hdl, -, -⟩ := hf
    have hy : a.y s g k = false := by
      cases hy : a.y s g k with
      | false => rfl
      | true =>
        exfalso
        have h1 := hdwc s hs g hg k hk hy
        omega
    refine ⟨hy, ?_⟩
    have hle := hdl s hs g hg k hk
    rw [hy] at hle
    simp only [Bool.false_eq_true, if_false, mul_zero] at hle
    have h0 := (hb.1 s hs g hg k hk).1
    linarith

/-- C3 counterexample: catalog `cex3` declares `max_obs_per_day = 0` for S1,
yet the assignment `asg3` with one active observation satisfies every model
constraint; the model only enforces the global constant 5. -/
theorem C3_counterexample :
    feasible cex3 asg3 ∧
    ¬ (∀ sat ∈ cex3.statellite,
         obsCount cex3 asg3 sat.satelliteid ≤ sat.max_obs_per_day) := by
  decide

/-- C3 (amended): in any accepted solution the number of active observation
indicators of each satellite never exceeds the global constant
`max_per_day_obs = 5`; the satellite's own catalog value is not consulted. -/
theorem C3_global_obs_limit (c : InputData) (a : Assignment)
    (hf : feasible c a) :
    ∀ s ∈ satIds c, obsCount c a s ≤ max_per_day_obs :=
  hf.2.2.1

/-- C3 witness. -/
theorem C3_witness : obsCount catW asgW "S1" ≤ max_per_day_obs :=
  C3_global_obs_limit catW asgW (by decide) "S1" (by decide)

/-- C5: in any accepted solution every satellite's memory level lies between
0 and its catalog memory capacity, and its power level between 0 and the
global power capacity, at every combined slot. -/
theorem C5_memory_power_bounds (c : InputData) (a : Assignment)
    (hf : feasible c a) :
    ∀ sat ∈ c.statellite, ∀ k ∈ combined_slots c,
      (0 ≤ a.m sat.satelliteid k ∧
        a.m sat.satelliteid k ≤ sat.memory_capacity) ∧
      (0 ≤ a.p sat.satelliteid k ∧
        a.p sat.satelliteid k ≤ power_capacity) := by
  obtain ⟨hb, -, -, -, -, hmc, -, hpc, -, -, -, -⟩ := hf
  intro sat hsat k hk
  have hs : sat.satelliteid ∈ satIds c := List.mem_map_of_mem _ hsat
  exact ⟨⟨hb.2.1 _ hs _ hk, hmc sat hsat k hk⟩,
    ⟨(hpc _ hs _ hk).2, (hpc _ hs _ hk).1⟩⟩

/-- C5 witness. -/
theorem C5_witness :
    (0 ≤ asgW.m "S1" "T1" ∧ asgW.m "S1" "T1" ≤ satW.memory_capacity) ∧
    (0 ≤ asgW.p "S1" "T1" ∧ asgW.p "S1" "T1" ≤ power_capacity) :=
  C5_memory_power_bounds catW asgW (by decide) satW (by decide) "T1" (by decide)

/-- C6: in any accepted solution a downlink volume is zero whenever its
paired indicator is off, and a strictly positive volume forces the paired
indicator active. -/
theorem C6_volume_indicator_link (c : InputData) (a : Assignment)
    (hf : feasible c a) :
    ∀ s ∈ satIds c, ∀ g ∈ gsIds c, ∀ k ∈ dl_time_slots c,
      (a.y s g k = false → a.d s g k = 0) ∧
      (0 < a.d s g k → a.y s g k = true) := by
  obtain ⟨hb, -, -, -, -, -, -, -, -, hdl, -, -⟩ := hf
  intro s hs g hg k hk
  have h0 := (hb.1 s hs g hg k hk).1
  have hle := hdl s hs g hg k hk
  constructor
  · intro hy
    rw [hy] at hle
    simp only [Bool.false_eq_true, if_false, mul_zero] at hle
    linarith
  · intro hd
    cases hy : a.y s g k with
    | true => rfl
    | false =>
      rw [hy] at hle
      simp only [Bool.false_eq_true, if_false, mul_zero] at hle
      linarith

/-- C6 witness. -/
theorem C6_witness : asgW.y "S1" "G1" "T2" = true :=
  ((C6_volume_indicator_link catW asgW (by decide) "S1" (by decide) "G1"
    (by decide) "T2" (by decide)).2) (by decide)

/-- C7: in any accepted solution, for every (ground station, downlink slot)
at most one satellite's downlink indicator is active (any two active ones
coincide), and for every (satellite, downlink slot) at most one ground
station's indicator is active. -/
theorem C7_downlink_exclusivity (c : InputData) (a : Assignment)
    (hf : feasible c a) :
    (∀ g ∈ gsIds c, ∀ k ∈ dl_time_slots c,
      ((satIds c).countP
        (fun s => decide ((s, g, k) ∈ dlVarKeys c) && a.y s g k)) ≤ 1 ∧
      ∀ s1 ∈ satIds c, ∀ s2 ∈ satIds c,
        a.y s1 g k = true → a.y s2 g k = true → s1 = s2) ∧
    (∀ s ∈ satIds c, ∀ k ∈ dl_time_slots c,
      ((gsIds c).countP
        (fun g => decide ((s, g, k) ∈ dlVarKeys c) && a.y s g k)) ≤ 1 ∧
      ∀ g1 ∈ gsIds c, ∀ g2 ∈ gsIds c,
        a.y s g1 k = true → a.y s g2 k = true → g1 = g2) := by
  obtain ⟨-, -, -, -, -, -, -, -, -, -, hgc, hse⟩ := hf
  constructor
  · intro g hg k hk
    refine ⟨hgc g hg k hk, ?_⟩
    intro s1 hs1 s2 hs2 hy1 hy2
    refine countP_le_one_unique (hgc g hg k hk) s1 hs1 s2 hs2 ?_ ?_
    · simp [hy1, (mem_dlVarKeys c s1 g k).mpr ⟨hs1, hg, hk⟩]
    · simp [hy2, (mem_dlVarKeys c s2 g k).mpr ⟨hs2, hg, hk⟩]
  · intro s hs k hk
    refine ⟨hse s hs k hk, ?_⟩
    intro g1 hg1 g2 hg2 hy1 hy2
    refine countP_le_one_unique (hse s hs k hk) g1 hg1 g2 hg2 ?_ ?_
    · simp [hy1, (mem_dlVarKeys c s g1 k).mpr ⟨hs, hg1, hk⟩]
    · simp [hy2, (mem_dlVarKeys c s g2 k).mpr ⟨hs, hg2, hk⟩]

/-- C7 witness. -/
theorem C7_witness :
    ((satIds catW).countP
      (fun s => decide ((s, "G1", "T2") ∈ dlVarKeys catW) && asgW.y s "G1" "T2")) ≤ 1 :=
  ((C7_downlink_exclusivity catW asgW (by decide)).1 "G1" (by decide) "T2"
    (by decide)).1

/-- C1 witness: on catalog `cex1` and the all-idle accepted solution, the
materialized variable at the window-less triple (S2, A, T1) is fixed at zero. -/
theorem C1_witness :
    idleAssignment.x "S2" "A" "T1" = false ∧
    ("S2", "A", "T1") ∈ obsVarKeys cex1 :=
  ⟨(C1_dense_materialization cex1).2.2.1 idleAssignment (by decide)
    "S2" "A" "T1" (by decide) (by decide), by decide⟩

/-- C2: in any accepted solution, memory follows the first-order recurrence
along the combined slot sequence: at the first combined slot it equals that
slot's observation inflow minus downlink outflow, and at every later slot it
equals the previous slot's memory plus that slot's inflow minus outflow. -/
theorem C2_memory_recurrence (c : InputData) (a : Assignment)
    (hf : feasible c a) :
    ∀ s ∈ satIds c,
      (∀ k0, (combined_slots c).get? 0 = some k0 →
         a.m s k0 = obs_in c a s k0 - dl_out c a s k0) ∧
      (∀ i kp k, (combined_slots c).get? i = some kp →
         (combined_slots c).get? (i + 1) = some k →
         a.m s k = a.m s kp + obs_in c a s k - dl_out c a s k) := by
  obtain ⟨-, -, -, -, hmb, -, -, -, -, -, -, -⟩ := hf
  intro s hs
  constructor
  · intro k0 h0
    obtain ⟨hlen, hget⟩ := List.get?_eq_some.mp h0
    have h2 := hmb s hs 0 hlen
    rw [if_pos rfl, hget] at h2
    rw [h2]
    ring
  · intro i kp k hp hk
    obtain ⟨hlen, hget⟩ := List.get?_eq_some.mp hk
    obtain ⟨hlenp, hgetp⟩ := List.get?_eq_some.mp hp
    have h2 := hmb s hs (i + 1) hlen
    rw [if_neg (Nat.succ_ne_zero i)] at h2
    have hfin : (⟨i + 1 - 1, Nat.lt_of_le_of_lt (Nat.sub_le (i + 1) 1) hlen⟩ :
        Fin (combined_slots c).length) = ⟨i, hlenp⟩ := by
      apply Fin.ext
      simp
    rw [hfin, hgetp, hget] at h2
    exact h2

/-- C2 witness. -/
theorem C2_witness :
    asgW.m "S1" "T2" =
      asgW.m "S1" "T1" + obs_in catW asgW "S1" "T2" - dl_out catW asgW "S1" "T2" :=
  ((C2_memory_recurrence catW asgW (by decide) "S1" (by decide)).2
    0 "T1" "T2" (by decide) (by decide))

/-- C4 counterexample: on catalog `cex4` (a recharge window at the only
combined slot), the all-idle assignment with memory/power levels defined by
the recurrences satisfies both balance recurrences but violates the power
capacity bound (power reaches 115 > 100), so it does not satisfy every
constraint. -/
theorem C4_counterexample :
    memoryBalance cex4 idle4 ∧ powerBalance cex4 idle4 ∧
    ¬ feasible cex4 idle4 := by
  decide

/-- C4 (amended): for every catalog whose satellites have non-negative memory
capacity and which enables no recharge window at any (satellite, combined
slot), the all-idle assignment (all indicators and volumes zero, memory zero,
power at capacity, as given by the recurrences) satisfies every constraint. -/
theorem C4_idle_feasible (c : InputData)
    (hcap : ∀ sat ∈ c.statellite, 0 ≤ sat.memory_capacity)
    (hrw : ∀ s ∈ satIds c, ∀ k ∈ combined_slots c,
      recharge_window c s k = 0) :
    feasible c idleAssignment := by
  refine ⟨⟨?_, ?_, ?_⟩, ?_, ?_, ?_, ?_, ?_, ?_, ?_, ?_, ?_, ?_, ?_⟩
  · intro s _ g _ k _
    simp [idleAssignment, data_down]
  · intro s _ k _
    simp [idleAssignment]
  · intro s _ k _
    simp [idleAssignment, power_capacity]
  · intro s _ t _ k _ hx
    simp [idleAssignment] at hx
  · intro s _
    simp [obsCount, idleAssignment, max_per_day_obs]
  · intro t _
    simp [targetObsCount, idleAssignment]
  · intro s hs i h
    have hin : obs_in c idleAssignment s ((combined_slots c).get ⟨i, h⟩) = 0 := by
      simp [obs_in, idleAssignment]
    have hout : dl_out c idleAssignment s ((combined_slots c).get ⟨i, h⟩) = 0 := by
      simp [dl_out, idleAssignment]
    rw [hin, hout]
    show (0 : ℚ) = (if i = 0 then 0 else (0 : ℚ)) + 0 - 0
    rw [ite_self]
    ring
  · intro sat hsat k _
    show (0 : ℚ) ≤ sat.memory_capacity
    exact hcap sat hsat
  · intro s hs i h
    have hin : power_consumed_obs c idleAssignment s
        ((combined_slots c).get ⟨i, h⟩) = 0 := by
      simp [power_consumed_obs, idleAssignment]
    have hout : power_consumed_dl c idleAssignment s
        ((combined_slots c).get ⟨i, h⟩) = 0 := by
      simp [power_consumed_dl, idleAssignment]
    have hr : recharge_window c s ((combined_slots c).get ⟨i, h⟩) = 0 :=
      hrw s hs _ (List.get_mem _ _ _)
    rw [hin, hout, hr]
    show power_capacity =
      (if i = 0 then power_capacity else power_capacity) - 0 - 0 +
        charge_rate_per_slot * 0
    rw [ite_self]
    ring
  · intro s _ k _
    constructor
    · show power_capacity ≤ power_capacity
      exact le_refl _
    · show (0 : ℚ) ≤ power_capacity
      norm_num [power_capacity]
  · intro s _ g _ k _ hy
    simp [idleAssignment] at hy
  · intro s _ g _ k _
    simp [idleAssignment]
  · intro g _ k _
    simp [idleAssignment]
  · intro s _ k _
    simp [idleAssignment]

/-- C4 witness. -/
theorem C4_witness : feasible catW idleAssignment :=
  C4_idle_feasible catW (by decide) (by decide)

/-- C8 counterexample: on catalog `cex8`, assignment A (observe the
urgency-4 target only) has strictly greater coverage value than assignment B
(observe the three value-1 targets and downlink 14 GB), yet A's full
objective (4) is not strictly greater than B's (4.4): the 0.1 downlink
weight overrides the coverage gap. -/
theorem C8_counterexample :
    feasible cex8 asgA8 ∧ feasible cex8 asgB8 ∧
    obs_value cex8 asgB8 < obs_value cex8 asgA8 ∧
    ¬ objective cex8 asgB8 < objective cex8 asgA8 :=
  ⟨by decide, by decide, by decide, by decide⟩

/-- C8 (amended): the downlink term never overrides a coverage trade-off
between two feasible assignments whose total downlink volumes are ordered the
same way: if coverage of `a` exceeds coverage of `b` and `a` downlinks at
least as much as `b`, then `a`'s full objective strictly exceeds `b`'s. -/
theorem C8_objective_dominance (c : InputData) (a b : Assignment)
    (_ha : feasible c a) (_hb : feasible c b)
    (hcov : obs_value c b < obs_value c a)
    (hdl : dl_total c b ≤ dl_total c a) :
    objective c b < objective c a := by
  unfold objective downlink_value
  have h10 : (0 : ℚ) < 1 / 10 := by norm_num
  nlinarith [mul_le_mul_of_nonneg_left hdl (le_of_lt h10)]

/-- C8 witness. -/
theorem C8_witness : objective cex8 idleAssignment < objective cex8 asgA8 :=
  C8_objective_dominance cex8 asgA8 idleAssignment (by decide) (by decide)
    (by decide) (by decide)

/-- A reader loop raises as soon as any of its rows raises. -/
theorem readRows_error {α β : Type} (f : α → Except String β) (l : List α)
    (x : α) (hx : x ∈ l) (e : String) (hf : f x = Except.error e) :
    ∃ e2, readRows f l = Except.error e2 := by
  induction l with
  | nil => cases hx
  | cons hd tl ih =>
    cases hx with
    | head => exact ⟨e, by simp [readRows, hf]⟩
    | tail _ hmem =>
      cases hfh : f hd with
      | error e3 => exact ⟨e3, by simp [readRows, hfh]⟩
      | ok b =>
        obtain ⟨e2, h2⟩ := ih hmem
        exact ⟨e2, by simp [readRows, hfh, h2]⟩

/-- A downlink row whose interval label has no separator raises IndexError. -/
theorem read_downlink_row_error (row : DownlinkRow)
    (h : (pySplit endash row.timeSlot).length = 1) :
    read_downlink_row row =
      Except.error "IndexError: list index out of range" := by
  obtain ⟨a2, ha⟩ := List.length_eq_one.mp h
  unfold read_downlink_row listIndex
  rw [ha]
  rfl

/-- A VTW row whose interval label has no separator raises IndexError. -/
theorem read_vtw_row_error (row : VtwRow)
    (h : (pySplit endash row.timeSlot).length = 1) :
    read_vtw_row row =
      Except.error "IndexError: list index out of range" := by
  obtain ⟨a2, ha⟩ := List.length_eq_one.mp h
  unfold read_vtw_row listIndex
  rw [ha]
  rfl

/-- C9: if any downlink or VTW row's time-slot interval field lacks the
en-dash separator, the whole pipeline returns an error: the reader raises,
the error reaches the caller, and the model (its decision-variable key sets)
is never constructed; the malformed label is never coerced into a slot. -/
theorem C9_malformed_interval_error (raw : RawInput)
    (h : (∃ row ∈ raw.downlinkRows, (pySplit endash row.timeSlot).length = 1) ∨
         (∃ row ∈ raw.vtwRows, (pySplit endash row.timeSlot).length = 1)) :
    ∃ e, runScheduler raw = Except.error e := by
  have hbuild : ∃ e, build raw = Except.error e := by
    cases h with
    | inl hdl =>
      obtain ⟨row, hrow, hlen⟩ := hdl
      obtain ⟨e2, h2⟩ := readRows_error read_downlink_row raw.downlinkRows row
        hrow _ (read_downlink_row_error row hlen)
      exact ⟨e2, by unfold build; rw [h2]⟩
    | inr hvtw =>
      obtain ⟨row, hrow, hlen⟩ := hvtw
      cases hdls : readRows read_downlink_row raw.downlinkRows with
      | error e3 => exact ⟨e3, by unfold build; rw [hdls]⟩
      | ok dls =>
        obtain ⟨e2, h2⟩ := readRows_error read_vtw_row raw.vtwRows row
          hrow _ (read_vtw_row_error row hlen)
        exact ⟨e2, by unfold build; rw [hdls, h2]⟩
  obtain ⟨e, he⟩ := hbuild
  exact ⟨e, by unfold runScheduler; rw [he]⟩

/-- C9 witness: the concrete raw input `rawBad`, whose downlink row reads
"T1 to T2", makes the pipeline fail before model construction. -/
theorem C9_witness : ∃ e, runScheduler rawBad = Except.error e :=
  C9_malformed_interval_error rawBad
    (Or.inl ⟨⟨"T1 to T2", "S1", "G1", 10, 10⟩, List.mem_cons_self _ _, by decide⟩)

theorem satIds_scrub (c : InputData) : satIds (scrubMaxData c) = satIds c := rfl

theorem tgtIds_scrub (c : InputData) : tgtIds (scrubMaxData c) = tgtIds c := rfl

theorem time_slots_scrub (c : InputData) :
    time_slots (scrubMaxData c) = time_slots c := rfl

theorem gsIds_scrub (c : InputData) : gsIds (scrubMaxData c) = gsIds c := by
  show (c.groudstation.map scrubGs).map (·.stationid) =
    c.groudstation.map (·.stationid)
  rw [List.map_map]
  rfl

theorem dl_time_slots_scrub (c : InputData) :
    dl_time_slots (scrubMaxData c) = dl_time_slots c := by
  show pySortedSet ((c.downlink.map scrubDl).map (fun d => pyStrip d.timeSlotStart)) =
    pySortedSet (c.downlink.map (fun d => pyStrip d.timeSlotStart))
  rw [List.map_map]
  rfl

theorem combined_slots_scrub (c : InputData) :
    combined_slots (scrubMaxData c) = combined_slots c := by
  unfold combined_slots
  rw [time_slots_scrub, dl_time_slots_scrub]

theorem obsVarKeys_scrub (c : InputData) :
    obsVarKeys (scrubMaxData c) = obsVarKeys c := rfl

theorem dlVarKeys_scrub (c : InputData) :
    dlVarKeys (scrubMaxData c) = dlVarKeys c := by
  unfold dlVarKeys
  simp only [satIds_scrub, gsIds_scrub, dl_time_slots_scrub]

theorem vt_window_scrub (c : InputData) (s t k : String) :
    vt_window (scrubMaxData c) s t k = vt_window c s t k := rfl

theorem downlink_window_scrub (c : InputData) (s g k : String) :
    downlink_window (scrubMaxData c) s g k = downlink_window c s g k := by
  unfold downlink_window
  simp only [satIds_scrub, gsIds_scrub, dl_time_slots_scrub]
  congr 1
  show ((∃ w ∈ c.downlink.map scrubDl, _) : Prop) = _
  simp only [List.mem_map, eq_iff_iff]
  constructor
  · rintro ⟨w, ⟨w0, hw0, rfl⟩, hprop⟩
    exact ⟨w0, hw0, hprop⟩
  · rintro ⟨w0, hw0, hprop⟩
    exact ⟨scrubDl w0, ⟨w0, hw0, rfl⟩, hprop⟩

theorem recharge_window_scrub (c : InputData) (s k : String) :
    recharge_window (scrubMaxData c) s k = recharge_window c s k := by
  unfold recharge_window
  simp only [satIds_scrub, combined_slots_scrub]
  rfl

theorem obs_in_scrub (c : InputData) (a : Assignment) (s k : String) :
    obs_in (scrubMaxData c) a s k = obs_in c a s k := rfl

theorem dl_out_scrub (c : InputData) (a : Assignment) (s k : String) :
    dl_out (scrubMaxData c) a s k = dl_out c a s k := by
  unfold dl_out
  simp only [gsIds_scrub, dlVarKeys_scrub]

theorem power_consumed_obs_scrub (c : InputData) (a : Assignment) (s k : String) :
    power_consumed_obs (scrubMaxData c) a s k = power_consumed_obs c a s k := rfl

theorem power_consumed_dl_scrub (c : InputData) (a : Assignment) (s k : String) :
    power_consumed_dl (scrubMaxData c) a s k = power_consumed_dl c a s k := by
  unfold power_consumed_dl
  simp only [gsIds_scrub, dlVarKeys_scrub]

theorem obsCount_scrub (c : InputData) (a : Assignment) (s : String) :
    obsCount (scrubMaxData c) a s = obsCount c a s := rfl

theorem targetObsCount_scrub (c : InputData) (a : Assignment) (t : String) :
    targetObsCount (scrubMaxData c) a t = targetObsCount c a t := rfl

theorem varBounds_scrub (c : InputData) (a : Assignment) :
    varBounds (scrubMaxData c) a ↔ varBounds c a := by
  unfold varBounds
  simp only [satIds_scrub, gsIds_scrub, dl_time_slots_scrub, combined_slots_scrub]

theorem vtwConstraint_scrub (c : InputData) (a : Assignment) :
    vtwConstraint (scrubMaxData c) a ↔ vtwConstraint c a := Iff.rfl

theorem obsLimit_scrub (c : InputData) (a : Assignment) :
    obsLimit (scrubMaxData c) a ↔ obsLimit c a := Iff.rfl

theorem singleObs_scrub (c : InputData) (a : Assignment) :
    singleObsPerTarget (scrubMaxData c) a ↔ singleObsPerTarget c a := Iff.rfl

theorem memoryBalanceOn_scrub (c : InputData) (a : Assignment)
    (cs : List String) :
    memoryBalanceOn (scrubMaxData c) a cs ↔ memoryBalanceOn c a cs := by
  unfold memoryBalanceOn
  simp only [satIds_scrub, obs_in_scrub, dl_out_scrub]

theorem memoryBalance_scrub (c : InputData) (a : Assignment) :
    memoryBalance (scrubMaxData c) a ↔ memoryBalance c a := by
  unfold memoryBalance
  rw [combined_slots_scrub]
  exact memoryBalanceOn_scrub c a _

theorem memoryCapacity_scrub (c : InputData) (a : Assignment) :
    memoryCapacity (scrubMaxData c) a ↔ memoryCapacity c a := by
  unfold memoryCapacity
  simp only [combined_slots_scrub]
  rfl

theorem powerBalanceOn_scrub (c : InputData) (a : Assignment)
    (cs : List String) :
    powerBalanceOn (scrubMaxData c) a cs ↔ powerBalanceOn c a cs := by
  unfold powerBalanceOn
  simp only [satIds_scrub, power_consumed_obs_scrub, power_consumed_dl_scrub,
    recharge_window_scrub]

theorem powerBalance_scrub (c : InputData) (a : Assignment) :
    powerBalance (scrubMaxData c) a ↔ powerBalance c a := by
  unfold powerBalance
  rw [combined_slots_scrub]
  exact powerBalanceOn_scrub c a _

theorem powerCapacity_scrub (c : InputData) (a : Assignment) :
    powerCapacity (scrubMaxData c) a ↔ powerCapacity c a := by
  unfold powerCapacity
  simp only [satIds_scrub, combined_slots_scrub]

theorem dlWindowConstraint_scrub (c : InputData) (a : Assignment) :
    dlWindowConstraint (scrubMaxData c) a ↔ dlWindowConstraint c a := by
  unfold dlWindowConstraint
  simp only [satIds_scrub, gsIds_scrub, dl_time_slots_scrub,
    downlink_window_scrub]

theorem dlLink_scrub (c : InputData) (a : Assignment) :
    dlLink (scrubMaxData c) a ↔ dlLink c a := by
  unfold dlLink
  simp only [satIds_scrub, gsIds_scrub, dl_time_slots_scrub]

theorem gsConflict_scrub (c : InputData) (a : Assignment) :
    gsConflict (scrubMaxData c) a ↔ gsConflict c a := by
  unfold gsConflict
  simp only [satIds_scrub, gsIds_scrub, dl_time_slots_scrub, dlVarKeys_scrub]

theorem satDlExclusivity_scrub (c : InputData) (a : Assignment) :
    satDlExclusivity (scrubMaxData c) a ↔ satDlExclusivity c a := by
  unfold satDlExclusivity
  simp only [satIds_scrub, gsIds_scrub, dl_time_slots_scrub, dlVarKeys_scrub]

/-- The whole constraint set never reads the downlink windows' max-data nor
the ground stations' max-data-rate: erasing them leaves acceptance unchanged. -/
theorem feasible_scrub (c : InputData) (a : Assignment) :
    feasible (scrubMaxData c) a ↔ feasible c a := by
  unfold feasible
  rw [varBounds_scrub, vtwConstraint_scrub, obsLimit_scrub, singleObs_scrub,
    memoryBalance_scrub, memoryCapacity_scrub, powerBalance_scrub,
    powerCapacity_scrub, dlWindowConstraint_scrub, dlLink_scrub,
    gsConflict_scrub, satDlExclusivity_scrub]

/-- C10: every downlink-volume variable is bounded above by the single global
constant `data_down = 10` GB, and acceptance of a solution is unchanged when
every DownlinkWindow max-data field and every ground station max-data-rate
field is erased: neither input field, though read into the catalog records,
constrains the transferred volume. -/
theorem C10_data_down_bound (c : InputData) (a : Assignment) :
    data_down = 10 ∧
    (feasible c a ↔ feasible (scrubMaxData c) a) ∧
    (feasible c a → ∀ s ∈ satIds c, ∀ g ∈ gsIds c, ∀ k ∈ dl_time_slots c,
      0 ≤ a.d s g k ∧ a.d s g k ≤ data_down) :=
  ⟨rfl, (feasible_scrub c a).symm,
   fun hf s hs g hg k hk => hf.1.1 s hs g hg k hk⟩

/-- C10 witness: on catalog `cat10` (window max-data 2 GB, station rate
2 GB/slot) the accepted solution `asg10` transfers 5 GB, within the global
10 GB bound, and remains accepted after both fields are erased. -/
theorem C10_witness :
    feasible (scrubMaxData cat10) asg10 ∧ asg10.d "S1" "G1" "T2" ≤ data_down :=
  ⟨(C10_data_down_bound cat10 asg10).2.1.mp (by decide),
   ((C10_data_down_bound cat10 asg10).2.2 (by decide) "S1" (by decide) "G1"
     (by decide) "T2" (by decide)).2⟩

end EOS

